import Mathlib

/-!
Verification of the bank-in-a-box OpenBanking sandbox against its
natural-language specification.

The Python source (FastAPI handlers over SQLAlchemy models) is shallowly
embedded: each relevant table row type becomes a structure, the database
session becomes an explicit `DB` value threaded through the handlers, and
each handler becomes a total function returning `Res` (the embedding of
"return value or raised exception").  Monetary `Numeric(15, 2)` columns are
embedded as `Int` values counted in hundredths (kopecks), `DateTime`
columns as the calendar record `DT` compared lexicographically.
-/

namespace Bank

/-- Calendar UTC timestamp with second precision, standing for the Python
`datetime` values the source stores and compares.  Comparison of two
`datetime` values is lexicographic on (year, month, day, second-of-day). -/
structure DT where
  year : Nat
  month : Nat
  day : Nat
  sec : Nat
deriving DecidableEq, Repr

/-- Strict `<` on datetimes, lexicographic, as the source's `datetime`
comparison operators. -/
def DT.ltb (a b : DT) : Bool :=
  decide (a.year < b.year) ||
    (decide (a.year = b.year) &&
      (decide (a.month < b.month) ||
        (decide (a.month = b.month) &&
          (decide (a.day < b.day) ||
            (decide (a.day = b.day) && decide (a.sec < b.sec))))))

/-- Same calendar month test; used only to state the specification's
"current period" guard for VRP consents with `period_type = "month"`. -/
def DT.sameMonth (a b : DT) : Bool :=
  a.year == b.year && a.month == b.month

/-- Day-offset on timestamps, standing for `timedelta(days := n)` addition.
Month/year carry is not normalised here: the only values built with it
(`next_payment_date`, agreement `end_date`) are advisory metadata that no
embedded code path ever reads back or compares. -/
def DT.addDays (t : DT) (n : Nat) : DT :=
  { t with day := t.day + n }

/-- Result of a handler call: a returned value or a raised exception. -/
inductive Res (ε α : Type) where
  | ok (val : α)
  | err (e : ε)
deriving DecidableEq, Repr

def Res.isOk {ε α : Type} : Res ε α → Bool
  | .ok _ => true
  | .err _ => false

/-- Database-layer exceptions that SQLAlchemy raises out of a query. -/
inductive DBErr where
  | multipleResultsFound
deriving DecidableEq, Repr

/-- Exceptions escaping a handler.  `http s c` stands for
`HTTPException(s, ...)` where `c` is the stable error code or message tag
of the detail payload; `nameErrorCurrentClient` stands for the `NameError`
raised when a handler body reads the undefined name `current_client`;
`db e` is an unhandled database exception; `validation422` is the
request-validation rejection FastAPI produces before the handler body runs
when a query parameter violates its declared bounds. -/
inductive HErr where
  | nameErrorCurrentClient
  | http (status : Nat) (code : String)
  | db (e : DBErr)
  | validation422
deriving DecidableEq, Repr

/-- Embedding of SQLAlchemy `scalar_one_or_none()`: `none` for no row, the
row if unique, and a raised `MultipleResultsFound` otherwise. -/
def scalar_one_or_none {α : Type} : List α → Res DBErr (Option α)
  | [] => .ok none
  | [a] => .ok (some a)
  | _ :: _ :: _ => .err .multipleResultsFound

/-- Python truthiness of an optional string (`None` and `""` are falsy). -/
def truthy : Option String → Bool
  | none => false
  | some s => s != ""

/-- In-place mutation of the rows selected by `p`, as the functional image
of assigning to attributes of a fetched ORM object and committing. -/
def updateWhere {α : Type} (p : α → Bool) (f : α → α) (l : List α) : List α :=
  l.map fun a => if p a then f a else a

/-- Bank code of this bank, from `config.py` (`BANK_CODE = "vbank"`). -/
def BANK_CODE : String := "vbank"

/-- Row of `clients` (models.py `Client`); only the columns the embedded
handlers read. -/
structure Client where
  id : Nat
  person_id : String
deriving DecidableEq, Repr

/-- Row of `accounts` (models.py `Account`). -/
structure Account where
  id : Nat
  client_id : Nat
  account_number : String
  account_type : String
  balance : Int
  currency : String := "RUB"
  status : String := "active"
deriving DecidableEq, Repr

/-- Row of `transactions` (models.py `Transaction`). -/
structure TransactionRec where
  account_id : Nat
  transaction_id : String
  amount : Int
  direction : String
  counterparty : String
  description : String
  transaction_date : DT
deriving DecidableEq, Repr

/-- Row of `consents` (models.py `Consent`): an account-access consent.
`request_id` is an `Integer` foreign key into `consent_requests`; every
creation site stores the integer primary key of the request row there. -/
structure Consent where
  consent_id : String
  request_id : Option Nat
  client_id : Nat
  granted_to : String
  permissions : List String
  status : String := "active"
  expiration_date_time : DT
  status_update_date_time : DT
  revoked_at : Option DT := none
  last_accessed_at : Option DT := none
deriving DecidableEq, Repr

/-- Row of `payment_consents` (models.py `PaymentConsent`). -/
structure PaymentConsent where
  consent_id : String
  client_id : Nat
  granted_to : String
  amount : Int
  currency : String := "RUB"
  debtor_account : String
  creditor_account : String
  creditor_name : String := ""
  reference : String := ""
  status : String := "active"
  expiration_date_time : DT
  status_update_date_time : DT
  used_at : Option DT := none
  revoked_at : Option DT := none
deriving DecidableEq, Repr

/-- Row of `payments` (models.py `Payment`). -/
structure PaymentRec where
  payment_id : String
  payment_consent_id : Option String := none
  account_id : Nat
  amount : Int
  currency : String := "RUB"
  destination_account : String
  destination_bank : Option String := none
  description : String := ""
  status : String
  creation_date_time : DT
  status_update_date_time : DT
deriving DecidableEq, Repr

/-- Row of `interbank_transfers` (models.py `InterbankTransfer`). -/
structure InterbankTransferRec where
  transfer_id : String
  payment_id : String
  from_bank : String
  to_bank : String
  amount : Int
  status : String
deriving DecidableEq, Repr

/-- Row of `bank_capital` (models.py `BankCapital`). -/
structure BankCapital where
  bank_code : String
  capital : Int
  initial_capital : Int
  total_deposits : Int := 0
  total_loans : Int := 0
deriving DecidableEq, Repr

/-- Row of `vrp_consents` (models.py `VRPConsent`). -/
structure VRPConsent where
  consent_id : String
  client_id : Nat
  account_id : Nat
  status : String := "AwaitingAuthorisation"
  max_individual_amount : Option Int := none
  max_amount_period : Option Int := none
  period_type : String := "month"
  max_payments_count : Option Nat := none
  valid_from : Option DT := none
  valid_to : Option DT := none
deriving DecidableEq, Repr

/-- Row of `vrp_payments` (models.py `VRPPayment`). -/
structure VRPPaymentRec where
  payment_id : String
  vrp_consent_id : String
  account_id : Nat
  amount : Int
  currency : String := "RUB"
  destination_account : String
  destination_bank : Option String := none
  description : Option String := none
  status : String
  is_recurring : Bool := true
  recurrence_frequency : String := "monthly"
  next_payment_date : Option DT := none
  creation_date_time : DT
  status_update_date_time : DT
  executed_at : Option DT := none
deriving DecidableEq, Repr

/-- Row of `products` (models.py `Product`). -/
structure Product where
  id : Nat
  product_id : String
  product_type : String
  name : String := ""
  min_amount : Option Int := none
  max_amount : Option Int := none
  term_months : Option Nat := none
  is_active : Bool := true
deriving DecidableEq, Repr

/-- Row of `product_agreements` (models.py `ProductAgreement`). -/
structure ProductAgreement where
  agreement_id : String
  client_id : Nat
  product_id : Nat
  account_id : Option Nat
  amount : Int
  status : String := "active"
  start_date : DT
  end_date : Option DT := none
deriving DecidableEq, Repr

/-- A verified bearer token, as the dict the auth dependencies
(`require_any_token`, `require_client`) hand to a handler.  `token_type`
is the dict's `"type"` entry, `client_id` its `"client_id"` entry. -/
structure Token where
  token_type : String
  client_id : String
deriving DecidableEq, Repr

/-- The database session state: one list per table the embedded handlers
touch, plus an autoincrement counter for `accounts.id` and a fresh-name
counter standing for the `uuid` calls that mint external identifiers. -/
structure DB where
  clients : List Client := []
  accounts : List Account := []
  transactions : List TransactionRec := []
  consents : List Consent := []
  payment_consents : List PaymentConsent := []
  payments : List PaymentRec := []
  interbank_transfers : List InterbankTransferRec := []
  capitals : List BankCapital := []
  vrp_consents : List VRPConsent := []
  vrp_payments : List VRPPaymentRec := []
  products : List Product := []
  agreements : List ProductAgreement := []
  next_account_id : Nat := 1
  gensym : Nat := 0
deriving DecidableEq, Repr

/-- Mint a fresh identifier suffix (the embedding of one `uuid.uuid4()`
call: the only property the source relies on is freshness). -/
def DB.fresh (db : DB) : String × DB :=
  (toString db.gensym, { db with gensym := db.gensym + 1 })

/-- Base filter of the active-consent query in
`ConsentService.check_consent` (consent_service.py lines 40-49): the
consent's client matches, the grantee matches, the status is `"active"`,
and the expiration lies strictly after "now" (captured once at the query). -/
def consentBaseMatch (clientId : Nat) (requesting_bank : String) (now : DT)
    (c : Consent) : Bool :=
  c.client_id == clientId && c.granted_to == requesting_bank &&
    c.status == "active" && now.ltb c.expiration_date_time

/-- Cross-type equality test from consent_service.py line 58: the column
`Consent.request_id` holds an integer (or NULL) while the supplied
`consent_id` is a string, and in Python an `int` or `None` never compares
equal to a `str`, so this test is constantly false. -/
def pyIntEqStr (_ : Option Nat) (_ : String) : Bool := false

/-- Supplied-id mismatch test of `check_consent` (consent_service.py lines
55-60), including the Python truthiness of the guard `if consent_id:`
(skipped for `None` and for the empty string). -/
def consentIdMismatch (c : Consent) : Option String → Bool
  | none => false
  | some cid =>
      if cid == "" then false
      else (c.consent_id != cid) && !(pyIntEqStr c.request_id cid)

namespace ConsentService

/-- Embedding of `ConsentService.check_consent` (consent_service.py lines
17-70).  Returns the consent found (or `none`), together with the session
state, in which a successful check has committed a `last_accessed_at`
update on the returned consent. -/
def check_consent (db : DB) (now : DT) (client_person_id : String)
    (requesting_bank : String) (permissions : List String)
    (consent_id : Option String) : Res DBErr (Option Consent × DB) :=
  match scalar_one_or_none
      (db.clients.filter fun cl => cl.person_id == client_person_id) with
  | .err e => .err e
  | .ok none => .ok (none, db)
  | .ok (some client) =>
    match scalar_one_or_none
        (db.consents.filter (consentBaseMatch client.id requesting_bank now)) with
    | .err e => .err e
    | .ok none => .ok (none, db)
    | .ok (some consent) =>
      if consentIdMismatch consent consent_id then .ok (none, db)
      else if permissions.all (fun p => consent.permissions.contains p) then
        .ok (some consent,
          { db with
              consents :=
                updateWhere (fun c => c.consent_id == consent.consent_id)
                  (fun c => { c with last_accessed_at := some now })
                  db.consents })
      else .ok (none, db)

/-- Embedding of `ConsentService.revoke_consent` (consent_service.py lines
314-351): look up the caller's client row, then the consent by id owned by
that client with status `"active"`; absent either, return `false` with the
state unchanged; otherwise set the consent to `"Revoked"` and return
`true`. -/
def revoke_consent (db : DB) (now : DT) (consent_id : String)
    (client_person_id : String) : Res DBErr (Bool × DB) :=
  match scalar_one_or_none
      (db.clients.filter fun cl => cl.person_id == client_person_id) with
  | .err e => .err e
  | .ok none => .ok (false, db)
  | .ok (some client) =>
    match scalar_one_or_none (db.consents.filter fun c =>
        c.consent_id == consent_id && c.client_id == client.id &&
          c.status == "active") with
    | .err e => .err e
    | .ok none => .ok (false, db)
    | .ok (some _) =>
      .ok (true,
        { db with
            consents :=
              updateWhere
                (fun c => c.consent_id == consent_id &&
                  c.client_id == client.id && c.status == "active")
                (fun c =>
                  { c with
                      status := "Revoked"
                      status_update_date_time := now
                      revoked_at := some now })
                db.consents })

end ConsentService

/-- Embedding of `DELETE /payment-consents/{consent_id}`
(payment_consents.py lines 270-293, `revoke_payment_consent`).  The
authenticated caller `current_client` is required by the dependency but
never consulted by the body; the consent is fetched by id alone, with no
check of its grantor or current status, and set to `"revoked"`. -/
def revoke_payment_consent (db : DB) (now : DT) (consent_id : String)
    (_current_client : Token) : Res HErr (Unit × DB) :=
  match scalar_one_or_none
      (db.payment_consents.filter fun c => c.consent_id == consent_id) with
  | .err e => .err (.db e)
  | .ok none => .err (.http 404 "Payment consent not found")
  | .ok (some _) =>
    .ok ((),
      { db with
          payment_consents :=
            updateWhere (fun c => c.consent_id == consent_id)
              (fun c =>
                { c with
                    status := "revoked"
                    revoked_at := some now
                    status_update_date_time := now })
              db.payment_consents })

/-- Balance payload of `GET /accounts/{id}/balances` (the source returns
the same account balance twice, as `InterimAvailable` and `InterimBooked`;
one copy carries all the information). -/
structure BalancesResp where
  accountId : Nat
  balance : Int
  currency : String
deriving DecidableEq, Repr

/-- Embedding of `GET /accounts/{account_id}/balances` (accounts.py lines
223-293, `get_balances`): account lookup first, then a consent gate that
runs only when the requesting-bank header is truthy and the token is not a
client token. -/
def get_balances (db : DB) (now : DT) (acc_id : Nat)
    (x_consent_id x_requesting_bank : Option String) (token_data : Token) :
    Res HErr (BalancesResp × DB) :=
  match scalar_one_or_none (db.accounts.filter fun a => a.id == acc_id) with
  | .err e => .err (.db e)
  | .ok none => .err (.http 404 "Account not found")
  | .ok (some account) =>
    if truthy x_requesting_bank ∧ token_data.token_type ≠ "client" then
      match scalar_one_or_none
          (db.clients.filter fun c => c.id == account.client_id) with
      | .err e => .err (.db e)
      | .ok none => .err (.http 404 "Client not found")
      | .ok (some client) =>
        match ConsentService.check_consent db now client.person_id
            (x_requesting_bank.getD "") ["ReadBalances"] x_consent_id with
        | .err e => .err (.db e)
        | .ok (none, _) => .err (.http 403 "CONSENT_REQUIRED")
        | .ok (some _, db1) =>
          .ok (⟨account.id, account.balance, account.currency⟩, db1)
    else
      .ok (⟨account.id, account.balance, account.currency⟩, db)

/-- Descending order on ledger entries by `transaction_date`: `a` may
precede `b` when `b`'s date is not later. -/
def DateGe (a b : TransactionRec) : Prop :=
  a.transaction_date.ltb b.transaction_date = false

instance (a b : TransactionRec) : Decidable (DateGe a b) := by
  unfold DateGe; infer_instance

/-- Insert a ledger entry into a list that is sorted by date descending,
keeping it sorted. -/
def insertDateDesc (t : TransactionRec) : List TransactionRec → List TransactionRec
  | [] => [t]
  | x :: xs =>
      if t.transaction_date.ltb x.transaction_date then x :: insertDateDesc t xs
      else t :: x :: xs

/-- Sort ledger entries by `transaction_date` descending, the embedding of
the query's `ORDER BY transaction_date DESC`. -/
def sortDateDesc : List TransactionRec → List TransactionRec
  | [] => []
  | x :: xs => insertDateDesc x (sortDateDesc xs)

/-- Page payload of `GET /accounts/{id}/transactions`. -/
structure TxPage where
  transaction : List TransactionRec
  totalRecords : Nat
  totalPages : Int
  currentPage : Int
  pageSize : Int
  hasNext : Bool
  hasPrev : Bool
deriving DecidableEq, Repr

/-- Body of the transaction-history pagination (accounts.py lines 350-458)
run after the consent gate, for the already-coerced page number: the dead
in-body `limit` coercions (unreachable because request validation already
confines `limit` to `[1, 100]`), offset computation, total count over the
account's full history, and the date-descending slice. -/
def txSlice (db : DB) (acc_id : Nat) (pageC limit : Int) : TxPage :=
  let limit1 : Int := if limit < 1 then 50 else limit
  let limit2 : Int := if 500 < limit1 then 500 else limit1
  let offset : Int := (pageC - 1) * limit2
  let full := db.transactions.filter fun t => t.account_id == acc_id
  let total := full.length
  let items := ((sortDateDesc full).drop offset.toNat).take limit2.toNat
  { transaction := items
    totalRecords := total
    totalPages := ((total : Int) + limit2 - 1) / limit2
    currentPage := pageC
    pageSize := limit2
    hasNext := decide (offset + limit2 < (total : Int))
    hasPrev := decide (1 < pageC) }

/-- Consent gate of `GET /accounts/{id}/transactions` (accounts.py lines
322-348): runs only when the requesting-bank header is truthy and the
token is not a client token; on success the session carries the
`last_accessed_at` update committed by `check_consent`. -/
def tx_consent_gate (db : DB) (now : DT) (acc_id : Nat)
    (x_consent_id x_requesting_bank : Option String) (token_data : Token) :
    Res HErr DB :=
  if truthy x_requesting_bank ∧ token_data.token_type ≠ "client" then
    match scalar_one_or_none (db.accounts.filter fun a => a.id == acc_id) with
    | .err e => .err (.db e)
    | .ok none => .err (.http 404 "Account not found")
    | .ok (some account) =>
      match scalar_one_or_none
          (db.clients.filter fun c => c.id == account.client_id) with
      | .err e => .err (.db e)
      | .ok none => .err (.http 404 "Client not found")
      | .ok (some client) =>
        match ConsentService.check_consent db now client.person_id
            (x_requesting_bank.getD "") ["ReadTransactionsDetail"]
            x_consent_id with
        | .err e => .err (.db e)
        | .ok (none, _) => .err (.http 403 "CONSENT_REQUIRED")
        | .ok (some _, db1) => .ok db1
  else .ok db

/-- Embedding of `GET /accounts/{account_id}/transactions` (accounts.py
lines 296-458, `get_transactions`).  The endpoint declares
`limit: int = Query(50, ge=1, le=100)`, so FastAPI rejects any request
with `limit` outside `[1, 100]` with a validation error before the handler
body runs; `page` carries no such bound and is coerced to `1` inside the
body when it is below `1`. -/
def get_transactions (db : DB) (now : DT) (acc_id : Nat) (page limit : Int)
    (x_consent_id x_requesting_bank : Option String) (token_data : Token) :
    Res HErr (TxPage × DB) :=
  if limit < 1 ∨ 100 < limit then .err .validation422
  else
    match tx_consent_gate db now acc_id x_consent_id x_requesting_bank
        token_data with
    | .err e => .err e
    | .ok db1 =>
      .ok (txSlice db1 acc_id (if page < 1 then 1 else page) limit, db1)

/-- Fields of the payment initiation payload of `POST /payments`
(payments.py `PaymentInitiation` / the dict reads at lines 200-216). -/
structure PaymentInitiation where
  amount : Int
  currency : String := "RUB"
  debtor_identification : String
  creditor_identification : String
  creditor_bank_code : Option String := none
  comment : String := ""
  remittance_unstructured : String := ""
deriving DecidableEq, Repr

/-- Description resolution of payments.py lines 209-216: prefer
`initiation.comment`, fall back to `remittanceInformation.unstructured`. -/
def paymentDescription (init : PaymentInitiation) : String :=
  if init.comment != "" then init.comment else init.remittance_unstructured

/-- Embedding of `POST /payments` (payments.py lines 76-263,
`create_payment`) as written: the first statement of the body,
`if not current_client:` (line 150), reads the name `current_client`,
which is defined nowhere in the module and is not a parameter, so every
invocation raises `NameError` before any consent, account, or payment
state is read or written.  The logic of the rest of the body, reachable
only if that line were repaired, is embedded separately as
`create_payment_reachable`. -/
def create_payment (_init : PaymentInitiation)
    (_x_payment_consent_id _x_requesting_bank : Option String)
    (_token_data : Token) (_db : DB) (_now : DT) :
    Res HErr (PaymentRec × DB) :=
  .err .nameErrorCurrentClient

/-- Embedding of `GET /payments/{payment_id}` (payments.py lines 266-304,
`get_payment`): its body likewise begins with `if not current_client:`
(line 279) on the undefined name `current_client`, so every invocation
raises `NameError` before the payment is looked up. -/
def get_payment (_payment_id : String) (_token_data : Token) (_db : DB) :
    Res HErr PaymentRec :=
  .err .nameErrorCurrentClient

/-- Consent gate of `POST /payments` (payments.py lines 153-198): only
when the requesting-bank header is truthy, require a payment-consent id,
fetch the consent by id with status `"active"` and unexpired, and reject
with `CONSENT_MISMATCH` exactly when its grantee differs from the
requesting bank.  No other field of the consent is consulted.  Returns the
consent id to store with the payment (`payment_consent_id_to_store`). -/
def payment_consent_gate (db : DB) (now : DT)
    (x_payment_consent_id x_requesting_bank : Option String) :
    Res HErr (Option String) :=
  if truthy x_requesting_bank then
    if truthy x_payment_consent_id = false then
      .err (.http 403 "PAYMENT_CONSENT_REQUIRED")
    else
      let pcid := x_payment_consent_id.getD ""
      match scalar_one_or_none (db.payment_consents.filter fun c =>
          c.consent_id == pcid && c.status == "active" &&
            now.ltb c.expiration_date_time) with
      | .err e => .err (.db e)
      | .ok none => .err (.http 403 "INVALID_CONSENT")
      | .ok (some payment_consent) =>
        if payment_consent.granted_to != x_requesting_bank.getD "" then
          .err (.http 403 "CONSENT_MISMATCH")
        else .ok (some pcid)
  else .ok none

/-- Modelled from the spec: `PaymentService.initiate_payment`, whose
module `services/payment_service.py` is not part of the sources; embedded
from the initiation contract of spec section 4.3 (resolve an active source
account by number or fail `SOURCE_NOT_FOUND`; resolve the target locally,
otherwise route inter-bank; require source balance to cover the amount or
fail `INSUFFICIENT_FUNDS`; then debit the source, credit a local target,
append the ledger entries, and for an inter-bank leg decrease bank capital
and log a transfer; the payment completes in the same transaction).
Failures are `ValueError` messages, which the handler maps to 400. -/
def initiate_payment (db : DB) (now : DT)
    (from_account_number to_account_number : String) (amount : Int)
    (description : String) (payment_consent_id : Option String) :
    Res String (PaymentRec × DB) :=
  match db.accounts.find? (fun a =>
      a.account_number == from_account_number && a.status == "active") with
  | none => .err "SOURCE_NOT_FOUND"
  | some source =>
    if source.balance < amount then .err "INSUFFICIENT_FUNDS"
    else
      let (pid, db1) := db.fresh
      let (txd, db2) := db1.fresh
      let payment : PaymentRec :=
        { payment_id := "pay-" ++ pid
          payment_consent_id := payment_consent_id
          account_id := source.id
          amount := amount
          destination_account := to_account_number
          description := description
          status := "completed"
          creation_date_time := now
          status_update_date_time := now }
      let debit_tx : TransactionRec :=
        { account_id := source.id
          transaction_id := "tx-" ++ txd
          amount := amount
          direction := "debit"
          counterparty := to_account_number
          description := description
          transaction_date := now }
      match db.accounts.find? (fun a =>
          a.account_number == to_account_number && a.status == "active") with
      | some target =>
        let (txc, db3) := db2.fresh
        let credit_tx : TransactionRec :=
          { account_id := target.id
            transaction_id := "tx-" ++ txc
            amount := amount
            direction := "credit"
            counterparty := from_account_number
            description := description
            transaction_date := now }
        .ok (payment,
          { db3 with
              accounts :=
                updateWhere (fun a => a.id == source.id)
                  (fun a => { a with balance := a.balance - amount })
                  (updateWhere (fun a => a.id == target.id)
                    (fun a => { a with balance := a.balance + amount })
                    db3.accounts)
              transactions := db3.transactions ++ [debit_tx, credit_tx]
              payments := db3.payments ++ [payment] })
      | none =>
        let (tid, db3) := db2.fresh
        let transfer : InterbankTransferRec :=
          { transfer_id := "ibt-" ++ tid
            payment_id := payment.payment_id
            from_bank := BANK_CODE
            to_bank := "other"
            amount := amount
            status := "completed" }
        .ok (payment,
          { db3 with
              accounts :=
                updateWhere (fun a => a.id == source.id)
                  (fun a => { a with balance := a.balance - amount })
                  db3.accounts
              transactions := db3.transactions ++ [debit_tx]
              payments := db3.payments ++ [payment]
              capitals :=
                updateWhere (fun c => c.bank_code == BANK_CODE)
                  (fun c => { c with capital := c.capital - amount })
                  db3.capitals
              interbank_transfers := db3.interbank_transfers ++ [transfer] })

/-- Consent consumption of `POST /payments` (payments.py lines 229-239):
after a successful initiation under a stored consent id, the consent is
re-fetched by id alone and set to `"used"` unconditionally. -/
def consume_payment_consent (db : DB) (now : DT) (pcid : String) : DB :=
  { db with
      payment_consents :=
        updateWhere (fun c => c.consent_id == pcid)
          (fun c =>
            { c with
                status := "used"
                used_at := some now
                status_update_date_time := now })
          db.payment_consents }

/-- The reachable remainder of `POST /payments` (payments.py lines
153-263): the consent gate, the initiation via the payment service, and
the consent consumption.  This is the behaviour the handler would have if
its dead first statement (the undefined `current_client` read, see
`create_payment`) were repaired. -/
def create_payment_reachable (init : PaymentInitiation)
    (x_payment_consent_id x_requesting_bank : Option String) (db : DB)
    (now : DT) : Res HErr (PaymentRec × DB) :=
  match payment_consent_gate db now x_payment_consent_id x_requesting_bank with
  | .err e => .err e
  | .ok payment_consent_id_to_store =>
    match initiate_payment db now init.debtor_identification
        init.creditor_identification init.amount (paymentDescription init)
        payment_consent_id_to_store with
    | .err msg => .err (.http 400 msg)
    | .ok (payment, db1) =>
      match payment_consent_id_to_store with
      | some pcid => .ok (payment, consume_payment_consent db1 now pcid)
      | none => .ok (payment, db1)

/-- Request body of `POST /domestic-vrp-payments` (vrp_payments.py
`VRPPaymentRequest`). -/
structure VRPPaymentRequest where
  vrp_consent_id : String
  amount : Int
  destination_account : String
  destination_bank : Option String := none
  description : Option String := none
  is_recurring : Bool := true
  recurrence_frequency : String := "monthly"
deriving DecidableEq, Repr

/-- Limit checks and execution of `POST /domestic-vrp-payments`
(vrp_payments.py lines 81-166), written after the status and expiry
gates: the only cap consulted is `max_individual_amount` (skipped when
`NULL` or zero, by Python truthiness); then the balance gate; then the
debit of the source account, one debit ledger entry, and the stored VRP
payment record.  `max_amount_period`, `period_type`, `max_payments_count`
and `valid_from` are never read.  No account is credited. -/
def create_vrp_payment_limits (db : DB) (now : DT) (req : VRPPaymentRequest)
    (consent : VRPConsent) (account : Account) :
    Res (HErr × DB) (VRPPaymentRec × DB) :=
  if (match consent.max_individual_amount with
      | some m => m != 0 && decide (m < req.amount)
      | none => false) then
    .err (.http 400 "AMOUNT_EXCEEDS_MAX_INDIVIDUAL", db)
  else if account.balance < req.amount then
    .err (.http 400 "INSUFFICIENT_FUNDS", db)
  else
    let (pid, db1) := db.fresh
    let (txd, db2) := db1.fresh
    let debit_tx : TransactionRec :=
      { account_id := account.id
        transaction_id := "tx-" ++ txd
        amount := req.amount
        direction := "debit"
        counterparty := req.destination_account
        description :=
          (req.description.getD ("VRP Payment to " ++ req.destination_account))
        transaction_date := now }
    let next_payment_date : Option DT :=
      if req.is_recurring then
        if req.recurrence_frequency == "daily" then some (now.addDays 1)
        else if req.recurrence_frequency == "weekly" then some (now.addDays 7)
        else if req.recurrence_frequency == "monthly" then some (now.addDays 30)
        else none
      else none
    let vrp_payment : VRPPaymentRec :=
      { payment_id := "vrp-pay-" ++ pid
        vrp_consent_id := consent.consent_id
        account_id := account.id
        amount := req.amount
        destination_account := req.destination_account
        destination_bank := req.destination_bank
        description := req.description
        status := "AcceptedSettlementCompleted"
        is_recurring := req.is_recurring
        recurrence_frequency := req.recurrence_frequency
        next_payment_date := next_payment_date
        creation_date_time := now
        status_update_date_time := now
        executed_at := some now }
    .ok (vrp_payment,
      { db2 with
          accounts :=
            updateWhere (fun a => a.id == account.id)
              (fun a => { a with balance := a.balance - req.amount })
              db2.accounts
          transactions := db2.transactions ++ [debit_tx]
          vrp_payments := db2.vrp_payments ++ [vrp_payment] })

/-- Embedding of `POST /domestic-vrp-payments` (vrp_payments.py lines
40-166, `create_vrp_payment`): join the consent with its source account,
require status `"Authorised"`, and apply the expiry gate on `valid_to`
(which commits `status := "Expired"` before raising), then the limit
checks of `create_vrp_payment_limits`.  Errors carry the session state at
the raise, since the expiry path commits before raising. -/
def create_vrp_payment (db : DB) (now : DT) (req : VRPPaymentRequest) :
    Res (HErr × DB) (VRPPaymentRec × DB) :=
  match db.vrp_consents.find? (fun c => c.consent_id == req.vrp_consent_id) with
  | none => .err (.http 404 "VRP Consent not found", db)
  | some consent =>
    match db.accounts.find? (fun a => a.id == consent.account_id) with
    | none => .err (.http 404 "VRP Consent not found", db)
    | some account =>
      if consent.status != "Authorised" then
        .err (.http 400 "VRP_CONSENT_NOT_AUTHORISED", db)
      else
        match consent.valid_to with
        | some vt =>
          if vt.ltb now then
            .err (.http 400 "VRP_CONSENT_EXPIRED",
              { db with
                  vrp_consents :=
                    updateWhere (fun c => c.consent_id == req.vrp_consent_id)
                      (fun c => { c with status := "Expired" })
                      db.vrp_consents })
          else create_vrp_payment_limits db now req consent account
        | none => create_vrp_payment_limits db now req consent account

/-- Python truthiness of an optional integer (`None` and `0` are falsy). -/
def truthyNat : Option Nat → Bool
  | none => false
  | some n => n != 0

/-- Request body of `POST /product-agreements` (product_agreements.py
`ProductAgreementRequest`); `source_account_id` is the numeric part of the
source's `"acc-N"` identifier. -/
structure ProductAgreementRequest where
  product_id : String
  amount : Int
  term_months : Option Nat := none
  source_account_id : Option Nat := none
deriving DecidableEq, Repr

/-- Request body of `DELETE /product-agreements/{id}`
(product_agreements.py `CloseAgreementRequest`). -/
structure CloseAgreementRequest where
  repayment_account_id : Option Nat := none
  repayment_amount : Option Int := none
deriving DecidableEq, Repr

/-- Embedding of `POST /product-agreements` (product_agreements.py lines
102-348, `create_agreement`) as written: the first statement of the body
builds a query from `current_client["client_id"]` (line 117) on the
undefined name `current_client`, so every invocation raises `NameError`
before any client, product, capital, or account state is read or written.
The reachable remainder is embedded as `create_agreement_reachable`. -/
def create_agreement (_req : ProductAgreementRequest) (_token_data : Token)
    (_db : DB) (_now : DT) : Res HErr (ProductAgreement × DB) :=
  .err .nameErrorCurrentClient

/-- Embedding of `DELETE /product-agreements/{agreement_id}`
(product_agreements.py lines 421-545, `close_agreement`) as written: its
body likewise reads the undefined name `current_client` (line 437), so
every invocation raises `NameError` first.  The reachable remainder is
embedded as `close_agreement_reachable`. -/
def close_agreement (_agreement_id : String)
    (_req : Option CloseAgreementRequest) (_token_data : Token) (_db : DB)
    (_now : DT) : Res HErr DB :=
  .err .nameErrorCurrentClient

/-- Deposit branch of agreement opening (product_agreements.py lines
157-213): require a funding source owned by the client with sufficient
balance, debit it, and create the deposit account at the amount, with the
debit/credit ledger pair.  Returns the new account id. -/
def agreement_open_deposit (db : DB) (now : DT) (client : Client)
    (req : ProductAgreementRequest) (product : Product) :
    Res HErr (Option Nat × DB) :=
  match req.source_account_id with
  | none => .err (.http 400 "DEPOSIT_REQUIRES_SOURCE")
  | some source_acc_id =>
    let (accno, db1) := db.fresh
    match scalar_one_or_none (db1.accounts.filter fun a =>
        a.id == source_acc_id && a.client_id == client.id) with
    | .err e => .err (.db e)
    | .ok none => .err (.http 404 "Source account not found")
    | .ok (some source_account) =>
      if source_account.balance < req.amount then
        .err (.http 400 "INSUFFICIENT_FUNDS")
      else
        let (txd, db2) := db1.fresh
        let debit_tx : TransactionRec :=
          { account_id := source_account.id
            transaction_id := "tx-" ++ txd
            amount := req.amount
            direction := "debit"
            counterparty := "Opening deposit " ++ product.name
            description := "Deposit funding"
            transaction_date := now }
        let deposit_account : Account :=
          { id := db2.next_account_id
            client_id := client.id
            account_number := "423" ++ accno
            account_type := "deposit"
            balance := req.amount
            status := "active" }
        let (txc, db3) := db2.fresh
        let credit_tx : TransactionRec :=
          { account_id := deposit_account.id
            transaction_id := "tx-" ++ txc
            amount := req.amount
            direction := "credit"
            counterparty := "Initial funding"
            description := "Deposit opening"
            transaction_date := now }
        .ok (some deposit_account.id,
          { db3 with
              accounts :=
                (updateWhere (fun a => a.id == source_account.id)
                  (fun a => { a with balance := a.balance - req.amount })
                  db3.accounts) ++ [deposit_account]
              transactions := db3.transactions ++ [debit_tx, credit_tx]
              next_account_id := db3.next_account_id + 1 })

/-- Loan branch of agreement opening (product_agreements.py lines
215-243): reject when a bank-capital row exists and its capital does not
cover the amount (when the row is absent, the check and the capital
adjustment are both skipped); create the loan account at the amount and
move the amount from `capital` to `total_loans`. -/
def agreement_open_loan (db : DB) (_now : DT) (client : Client)
    (req : ProductAgreementRequest) : Res HErr (Option Nat × DB) :=
  match scalar_one_or_none
      (db.capitals.filter fun c => c.bank_code == BANK_CODE) with
  | .err e => .err (.db e)
  | .ok capital =>
    if (match capital with
        | some cap => decide (cap.capital < req.amount)
        | none => false) then
      .err (.http 400 "INSUFFICIENT_BANK_CAPITAL")
    else
      let (accno, db1) := db.fresh
      let loan_account : Account :=
        { id := db1.next_account_id
          client_id := client.id
          account_number := "455" ++ accno
          account_type := "loan"
          balance := req.amount
          status := "active" }
      .ok (some loan_account.id,
        { db1 with
            accounts := db1.accounts ++ [loan_account]
            capitals :=
              (match capital with
               | some _ =>
                 updateWhere (fun c => c.bank_code == BANK_CODE)
                   (fun c =>
                     { c with
                         capital := c.capital - req.amount
                         total_loans := c.total_loans + req.amount })
                   db1.capitals
               | none => db1.capitals)
            next_account_id := db1.next_account_id + 1 })

/-- Card branch of agreement opening (product_agreements.py lines
245-305): optional funding from a source account of the client, then a
card account at the funded balance. -/
def agreement_open_card (db : DB) (now : DT) (client : Client)
    (req : ProductAgreementRequest) (product : Product) :
    Res HErr (Option Nat × DB) :=
  if 0 < req.amount ∧ req.source_account_id = none then
    .err (.http 400 "CARD_FUNDING_REQUIRES_SOURCE")
  else
    let (accno, db1) := db.fresh
    match req.source_account_id with
    | some source_acc_id =>
      if 0 < req.amount then
        match scalar_one_or_none (db1.accounts.filter fun a =>
            a.id == source_acc_id && a.client_id == client.id) with
        | .err e => .err (.db e)
        | .ok none => .err (.http 404 "Source account not found")
        | .ok (some source_account) =>
          if source_account.balance < req.amount then
            .err (.http 400 "INSUFFICIENT_FUNDS")
          else
            let (txd, db2) := db1.fresh
            let debit_tx : TransactionRec :=
              { account_id := source_account.id
                transaction_id := "tx-" ++ txd
                amount := req.amount
                direction := "debit"
                counterparty := "Card funding " ++ product.name
                description := "Card funding"
                transaction_date := now }
            let card_account : Account :=
              { id := db2.next_account_id
                client_id := client.id
                account_number := "408" ++ accno
                account_type := "card"
                balance := req.amount
                status := "active" }
            let (txc, db3) := db2.fresh
            let credit_tx : TransactionRec :=
              { account_id := card_account.id
                transaction_id := "tx-" ++ txc
                amount := req.amount
                direction := "credit"
                counterparty := "Initial funding"
                description := "Card opening"
                transaction_date := now }
            .ok (some card_account.id,
              { db3 with
                  accounts :=
                    (updateWhere (fun a => a.id == source_account.id)
                      (fun a => { a with balance := a.balance - req.amount })
                      db3.accounts) ++ [card_account]
                  transactions := db3.transactions ++ [debit_tx, credit_tx]
                  next_account_id := db3.next_account_id + 1 })
      else
        let card_account : Account :=
          { id := db1.next_account_id
            client_id := client.id
            account_number := "408" ++ accno
            account_type := "card"
            balance := 0
            status := "active" }
        .ok (some card_account.id,
          { db1 with
              accounts := db1.accounts ++ [card_account]
              next_account_id := db1.next_account_id + 1 })
    | none =>
      let card_account : Account :=
        { id := db1.next_account_id
          client_id := client.id
          account_number := "408" ++ accno
          account_type := "card"
          balance := 0
          status := "active" }
      .ok (some card_account.id,
        { db1 with
            accounts := db1.accounts ++ [card_account]
            next_account_id := db1.next_account_id + 1 })

/-- The reachable remainder of `POST /product-agreements`
(product_agreements.py lines 115-348): client and product lookup, the
product min/max gates (skipped for `NULL` or zero bounds, by Python
truthiness), the per-product-type opening branch, and the agreement
record.  This is the behaviour the handler would have if its dead first
statement (see `create_agreement`) were repaired, with the authenticated
client's `person_id` passed in place of `current_client["client_id"]`. -/
def create_agreement_reachable (db : DB) (now : DT)
    (client_person_id : String) (req : ProductAgreementRequest) :
    Res HErr (ProductAgreement × DB) :=
  match scalar_one_or_none
      (db.clients.filter fun cl => cl.person_id == client_person_id) with
  | .err e => .err (.db e)
  | .ok none => .err (.http 404 "Client not found")
  | .ok (some client) =>
    match scalar_one_or_none
        (db.products.filter fun p => p.product_id == req.product_id) with
    | .err e => .err (.db e)
    | .ok none => .err (.http 404 "Product not found")
    | .ok (some product) =>
      if product.is_active = false then .err (.http 400 "Product is not active")
      else if (match product.min_amount with
          | some m => m != 0 && decide (req.amount < m)
          | none => false) then
        .err (.http 400 "AMOUNT_BELOW_MIN")
      else if (match product.max_amount with
          | some m => m != 0 && decide (m < req.amount)
          | none => false) then
        .err (.http 400 "AMOUNT_ABOVE_MAX")
      else
        let (agrno, db1) := db.fresh
        let end_date : Option DT :=
          if truthyNat req.term_months then
            some (now.addDays ((req.term_months.getD 0) * 30))
          else if truthyNat product.term_months then
            some (now.addDays ((product.term_months.getD 0) * 30))
          else none
        let branch : Res HErr (Option Nat × DB) :=
          if product.product_type == "deposit" then
            agreement_open_deposit db1 now client req product
          else if product.product_type == "loan" then
            agreement_open_loan db1 now client req
          else if product.product_type == "card" ||
              product.product_type == "credit_card" then
            agreement_open_card db1 now client req product
          else .ok (none, db1)
        match branch with
        | .err e => .err e
        | .ok (account_id, db2) =>
          let agreement : ProductAgreement :=
            { agreement_id := "agr-" ++ agrno
              client_id := client.id
              product_id := product.id
              account_id := account_id
              amount := req.amount
              status := "active"
              start_date := now
              end_date := end_date }
          .ok (agreement,
            { db2 with agreements := db2.agreements ++ [agreement] })

/-- Loan repayment step of agreement closing (product_agreements.py lines
473-525), entered when the product is a loan and the loan account carries
a positive balance: debit the nominated repayment account by the debt,
zero the loan account, log the ledger pair, and when a bank-capital row
exists return the debt from `total_loans` to `capital`. -/
def agreement_close_repay (db : DB) (now : DT) (client : Client)
    (loan_account : Account) (req : Option CloseAgreementRequest) :
    Res HErr DB :=
  match (match req with
         | some r => r.repayment_account_id
         | none => none) with
  | none => .err (.http 400 "REPAYMENT_REQUIRED")
  | some repay_acc_id =>
    match scalar_one_or_none (db.accounts.filter fun a =>
        a.id == repay_acc_id && a.client_id == client.id) with
    | .err e => .err (.db e)
    | .ok none => .err (.http 404 "Repayment account not found")
    | .ok (some repayment_account) =>
      let debt := loan_account.balance
      if repayment_account.balance < debt then
        .err (.http 400 "INSUFFICIENT_FUNDS")
      else
        let (txd, db1) := db.fresh
        let debit_tx : TransactionRec :=
          { account_id := repayment_account.id
            transaction_id := "tx-" ++ txd
            amount := debt
            direction := "debit"
            counterparty := "Loan repayment"
            description := "Loan repayment"
            transaction_date := now }
        let (txc, db2) := db1.fresh
        let credit_tx : TransactionRec :=
          { account_id := loan_account.id
            transaction_id := "tx-" ++ txc
            amount := debt
            direction := "credit"
            counterparty := "Repayment"
            description := "Loan repayment credit"
            transaction_date := now }
        match scalar_one_or_none
            (db2.capitals.filter fun c => c.bank_code == BANK_CODE) with
        | .err e => .err (.db e)
        | .ok capital =>
          .ok
            { db2 with
                accounts :=
                  updateWhere (fun a => a.id == repayment_account.id)
                    (fun a => { a with balance := a.balance - debt })
                    (updateWhere (fun a => a.id == loan_account.id)
                      (fun a => { a with balance := 0 })
                      db2.accounts)
                transactions := db2.transactions ++ [debit_tx, credit_tx]
                capitals :=
                  (match capital with
                   | some _ =>
                     updateWhere (fun c => c.bank_code == BANK_CODE)
                       (fun c =>
                         { c with
                             capital := c.capital + debt
                             total_loans := c.total_loans - debt })
                       db2.capitals
                   | none => db2.capitals) }

/-- The reachable remainder of `DELETE /product-agreements/{agreement_id}`
(product_agreements.py lines 435-545): find the client's agreement and its
product, reject if already closed, repay an outstanding loan, then mark
the agreement closed and close its associated account.  This is the
behaviour the handler would have if its dead first statement (see
`close_agreement`) were repaired. -/
def close_agreement_reachable (db : DB) (now : DT)
    (client_person_id : String) (agreement_id : String)
    (req : Option CloseAgreementRequest) : Res HErr DB :=
  match scalar_one_or_none
      (db.clients.filter fun cl => cl.person_id == client_person_id) with
  | .err e => .err (.db e)
  | .ok none => .err (.http 404 "Client not found")
  | .ok (some client) =>
    match (db.agreements.filter fun a =>
        a.agreement_id == agreement_id && a.client_id == client.id).head? with
    | none => .err (.http 404 "Agreement not found")
    | some agreement =>
      match db.products.find? (fun p => p.id == agreement.product_id) with
      | none => .err (.http 404 "Agreement not found")
      | some product =>
        if agreement.status == "closed" then
          .err (.http 400 "Agreement already closed")
        else
          let loan_account : Option Account :=
            match agreement.account_id with
            | some i => db.accounts.find? (fun a => a.id == i)
            | none => none
          let afterRepay : Res HErr DB :=
            match loan_account with
            | some la =>
              if product.product_type == "loan" && decide (0 < la.balance) then
                agreement_close_repay db now client la req
              else .ok db
            | none => .ok db
          match afterRepay with
          | .err e => .err e
          | .ok db1 =>
            .ok
              { db1 with
                  agreements :=
                    updateWhere
                      (fun a => a.agreement_id == agreement_id &&
                        a.client_id == client.id)
                      (fun a => { a with status := "closed" })
                      db1.agreements
                  accounts :=
                    (match loan_account with
                     | some la =>
                       updateWhere (fun a => a.id == la.id)
                         (fun a => { a with status := "closed" })
                         db1.accounts
                     | none => db1.accounts) }

/-- The account of client 1 in the concrete C10 state. -/
def c10_acct : Account := ⟨1, 1, "ACC100", "checking", 7700, "RUB", "active"⟩

/-- Concrete state for exercising the client-token read path: the only
account belongs to client 1 (`person_id` `demo-1`), while the token below
identifies a different client. -/
def c10_db : DB :=
  { clients := [⟨1, "demo-1"⟩]
    accounts := [c10_acct] }

/-- Ledger entries of the concrete paging state. -/
def c8_tx1 : TransactionRec :=
  ⟨1, "tx-1", 10000, "credit", "seed", "opening", ⟨2025, 1, 1, 0⟩⟩

/-- Second, later ledger entry of the concrete paging state. -/
def c8_tx2 : TransactionRec :=
  ⟨1, "tx-2", 2500, "debit", "shop", "purchase", ⟨2025, 2, 1, 0⟩⟩

/-- Concrete state for the paging counterexample. -/
def c8_db : DB :=
  { clients := [⟨1, "demo-1"⟩]
    accounts := [⟨1, 1, "ACC100", "checking", 7500, "RUB", "active"⟩]
    transactions := [c8_tx1, c8_tx2] }

/-- First of two simultaneously active consents of client 1 for `tpp1`. -/
def c4_consent_a : Consent :=
  { consent_id := "consent-a"
    request_id := some 1
    client_id := 1
    granted_to := "tpp1"
    permissions := ["ReadAccountsDetail"]
    status := "active"
    expiration_date_time := ⟨2026, 1, 1, 0⟩
    status_update_date_time := ⟨2025, 1, 1, 0⟩ }

/-- Second simultaneously active consent of client 1 for `tpp1`. -/
def c4_consent_b : Consent :=
  { c4_consent_a with consent_id := "consent-b", request_id := some 2 }

/-- State with two active consents of the same grantor for the same
grantee. -/
def c4_db_two : DB :=
  { clients := [⟨1, "demo-1"⟩], consents := [c4_consent_a, c4_consent_b] }

/-- State with a single active consent. -/
def c4_db_one : DB :=
  { clients := [⟨1, "demo-1"⟩], consents := [c4_consent_a] }

/-- A payment consent of client 1 that has already been consumed. -/
def c6_pc : PaymentConsent :=
  { consent_id := "pcon-1"
    client_id := 1
    granted_to := "tpp1"
    amount := 50000
    debtor_account := "ACC100"
    creditor_account := "ACC999"
    status := "used"
    expiration_date_time := ⟨2026, 1, 1, 0⟩
    status_update_date_time := ⟨2025, 1, 1, 0⟩ }

/-- State with the consumed payment consent of client 1 and a second
client who is not its grantor. -/
def c6_db : DB :=
  { clients := [⟨1, "demo-1"⟩, ⟨2, "other"⟩], payment_consents := [c6_pc] }

/-- The state after the counterexample revocation call. -/
def c6_after : DB :=
  match revoke_payment_consent c6_db ⟨2025, 10, 12, 0⟩ "pcon-1"
      ⟨"client", "other"⟩ with
  | .ok (_, d) => d
  | .err _ => c6_db

/-!
Claim C3 — single-use payment consents.  The consent-gate and consumption
logic would enforce single use, but the handler as written never reaches
it (see C9).
-/

/-- The authorized single-shot payment consent of scenario 4. -/
def c3_pc : PaymentConsent :=
  { consent_id := "pcon-1"
    client_id := 1
    granted_to := "tpp1"
    amount := 50000
    debtor_account := "ACC100"
    creditor_account := "ACC999"
    status := "active"
    expiration_date_time := ⟨2026, 1, 1, 0⟩
    status_update_date_time := ⟨2025, 1, 1, 0⟩ }

/-- Initial state of scenario 4: funded debtor account, empty creditor
account, one active payment consent. -/
def c3_db : DB :=
  { clients := [⟨1, "demo-1"⟩]
    accounts := [⟨1, 1, "ACC100", "checking", 100000, "RUB", "active"⟩,
      ⟨2, 1, "ACC999", "checking", 0, "RUB", "active"⟩]
    payment_consents := [c3_pc] }

/-- Payment initiation exactly matching the consent. -/
def c3_init : PaymentInitiation :=
  { amount := 50000
    debtor_identification := "ACC100"
    creditor_identification := "ACC999" }

/-- The first payment attempt through the reachable handler logic. -/
def c3_first : Res HErr (PaymentRec × DB) :=
  create_payment_reachable c3_init (some "pcon-1") (some "tpp1") c3_db
    ⟨2025, 10, 12, 0⟩

/-- State after the first payment attempt. -/
def c3_db1 : DB :=
  match c3_first with
  | .ok (_, d) => d
  | .err _ => c3_db

/-!
Claim C1 — payment-consent field binding.  The gate checks only the
consent id, status, expiry, and grantee; debtor, creditor, currency, and
amount are never compared, and the handler as written never runs at all.
-/

/-- The consent of the C1 scenario: `500.00 RUB` from `ACC100` to
`ACC999`, granted to `tpp1`. -/
def c1_pc : PaymentConsent :=
  { consent_id := "pcon-1"
    client_id := 1
    granted_to := "tpp1"
    amount := 50000
    currency := "RUB"
    debtor_account := "ACC100"
    creditor_account := "ACC999"
    status := "active"
    expiration_date_time := ⟨2026, 1, 1, 0⟩
    status_update_date_time := ⟨2025, 1, 1, 0⟩ }

/-- State for the C1 scenario: the consent plus three active accounts so
that the deviating payment can settle. -/
def c1_db : DB :=
  { clients := [⟨1, "demo-1"⟩]
    accounts := [⟨1, 1, "ACC100", "checking", 200000, "RUB", "active"⟩,
      ⟨2, 1, "ACC200", "checking", 300000, "RUB", "active"⟩,
      ⟨3, 1, "ACC888", "checking", 0, "RUB", "active"⟩]
    payment_consents := [c1_pc] }

/-- A payment initiation deviating from the consent in every bound field:
amount, debtor, creditor, and currency. -/
def c1_init : PaymentInitiation :=
  { amount := 99999
    currency := "USD"
    debtor_identification := "ACC200"
    creditor_identification := "ACC888" }

/-- The deviating payment through the reachable handler logic. -/
def c1_res : Res HErr (PaymentRec × DB) :=
  create_payment_reachable c1_init (some "pcon-1") (some "tpp1") c1_db
    ⟨2025, 10, 12, 0⟩

/-- State after the deviating payment. -/
def c1_db2 : DB :=
  match c1_res with
  | .ok (_, d) => d
  | .err _ => c1_db

/-!
Claim C5 — conservation under intra-bank payment, instantiated by the
claim at VRP payments with a local destination.  The VRP handler debits
the source and credits nothing.
-/

/-- The authorized VRP consent over account 1. -/
def c5_consent : VRPConsent :=
  { consent_id := "vrpc-1"
    client_id := 1
    account_id := 1
    status := "Authorised"
    max_individual_amount := some 500000
    max_amount_period := some 2000000
    period_type := "month"
    max_payments_count := some 100
    valid_from := some ⟨2025, 1, 1, 0⟩
    valid_to := some ⟨2026, 1, 1, 0⟩ }

/-- State for the C5 scenario: the source account and a local destination
account `DEST1`. -/
def c5_db : DB :=
  { clients := [⟨1, "demo-1"⟩]
    accounts := [⟨1, 1, "ACC100", "checking", 100000, "RUB", "active"⟩,
      ⟨2, 1, "DEST1", "checking", 0, "RUB", "active"⟩]
    vrp_consents := [c5_consent] }

/-- VRP payment of `250.00` to the local account `DEST1`. -/
def c5_req : VRPPaymentRequest :=
  { vrp_consent_id := "vrpc-1"
    amount := 25000
    destination_account := "DEST1" }

/-- The successful VRP payment call. -/
def c5_res : Res (HErr × DB) (VRPPaymentRec × DB) :=
  create_vrp_payment c5_db ⟨2025, 10, 12, 0⟩ c5_req

/-- State after the successful VRP payment. -/
def c5_db2 : DB :=
  match c5_res with
  | .ok (_, d) => d
  | .err (_, d) => d

/-!
Claim C2 — VRP guard evaluation.  Only the per-payment cap and the
`valid_to` expiry are checked; the period-sum cap, the payment-count cap,
and `valid_from` are never read.
-/

/-- Modelled from the spec: guard 2 of the VRP enforcement (section 4.1)
for `period_type = "month"` — the sum of executed amounts over the VRP
consent's payments whose execution time lies in the calendar month of
"now".  The handler has no corresponding code; this definition only
states the guard the claim asserts. -/
def vrp_executed_month_sum (db : DB) (cid : String) (now : DT) : Int :=
  ((db.vrp_payments.filter fun p =>
      p.vrp_consent_id == cid &&
        (match p.executed_at with
         | some t => t.sameMonth now
         | none => false)).map fun p => p.amount).sum

/-- One executed VRP payment of `5000.00` on the given October 2025 day. -/
def c2_paid (k : Nat) : VRPPaymentRec :=
  { payment_id := "vrp-pay-seed-" ++ toString k
    vrp_consent_id := "vrpc-1"
    account_id := 1
    amount := 500000
    destination_account := "ACCX"
    status := "AcceptedSettlementCompleted"
    creation_date_time := ⟨2025, 10, k, 0⟩
    status_update_date_time := ⟨2025, 10, k, 0⟩
    executed_at := some ⟨2025, 10, k, 0⟩ }

/-- State of spec scenario 5: VRP consent with `max_individual = 5000`,
`max_amount_period = 20000`, period `month`, and four executed `5000.00`
payments in October 2025. -/
def c2_db : DB :=
  { clients := [⟨1, "demo-1"⟩]
    accounts := [⟨1, 1, "ACC100", "checking", 1000000, "RUB", "active"⟩]
    vrp_consents := [c5_consent]
    vrp_payments := [c2_paid 2, c2_paid 9, c2_paid 16, c2_paid 18] }

/-- The fifth `5000.00` payment request in the same month. -/
def c2_req : VRPPaymentRequest :=
  { vrp_consent_id := "vrpc-1"
    amount := 500000
    destination_account := "ACCX" }

/-- State after the fifth payment. -/
def c2_db2 : DB :=
  match create_vrp_payment c2_db ⟨2025, 10, 20, 0⟩ c2_req with
  | .ok (_, d) => d
  | .err (_, d) => d

/-- VRP consent variant capping `max_payments_count` at 4 (with a period
cap too high to interfere). -/
def c2_consent_count : VRPConsent :=
  { c5_consent with
      max_amount_period := some 100000000
      max_payments_count := some 4 }

/-- Variant state for the count guard: the same four executed payments
under the count-capped consent. -/
def c2_db_count : DB :=
  { c2_db with vrp_consents := [c2_consent_count] }

/-!
Claim C7 — the loan capital round trip.  The interior loan logic performs
the round trip, but both agreement handlers are dead code: they read the
undefined name `current_client` first.
-/

/-- The loan product of the C7 scenario. -/
def c7_product : Product :=
  { id := 1
    product_id := "prod-loan"
    product_type := "loan"
    name := "Loan" }

/-- Initial C7 state: capital `50000.00`, no loans, one funded checking
account. -/
def c7_db : DB :=
  { clients := [⟨1, "demo-1"⟩]
    accounts := [⟨1, 1, "40817CHECK", "checking", 200000, "RUB", "active"⟩]
    products := [c7_product]
    capitals := [⟨"vbank", 5000000, 5000000, 0, 0⟩]
    next_account_id := 2 }

/-- Opening the loan agreement for principal `1000.00` through the
reachable handler logic. -/
def c7_open : Res HErr (ProductAgreement × DB) :=
  create_agreement_reachable c7_db ⟨2025, 10, 12, 0⟩ "demo-1"
    { product_id := "prod-loan", amount := 100000 }

/-- State after opening the loan. -/
def c7_db1 : DB :=
  match c7_open with
  | .ok (_, d) => d
  | .err _ => c7_db

/-- The opened agreement's id. -/
def c7_agr_id : String :=
  match c7_open with
  | .ok (a, _) => a.agreement_id
  | .err _ => ""

/-- Closing the loan agreement, repaying from the checking account. -/
def c7_close : Res HErr DB :=
  close_agreement_reachable c7_db1 ⟨2025, 11, 1, 0⟩ "demo-1" c7_agr_id
    (some { repayment_account_id := some 1 })

/-- State after closing the loan. -/
def c7_db2 : DB :=
  match c7_close with
  | .ok d => d
  | .err _ => c7_db1


/-! Theorems. -/

theorem DT.ltb_iff (a b : DT) :
    a.ltb b = true ↔
      (a.year < b.year ∨ (a.year = b.year ∧
        (a.month < b.month ∨ (a.month = b.month ∧
          (a.day < b.day ∨ (a.day = b.day ∧ a.sec < b.sec)))))) := by
  simp [DT.ltb]

theorem DT.ltb_eq_false_iff (a b : DT) :
    a.ltb b = false ↔
      ¬(a.year < b.year ∨ (a.year = b.year ∧
        (a.month < b.month ∨ (a.month = b.month ∧
          (a.day < b.day ∨ (a.day = b.day ∧ a.sec < b.sec)))))) := by
  rw [← Bool.not_eq_true, DT.ltb_iff]

theorem DT.ltb_false_trans {a b c : DT} (h1 : a.ltb b = false)
    (h2 : b.ltb c = false) : a.ltb c = false := by
  rw [DT.ltb_eq_false_iff] at h1 h2 ⊢
  omega

theorem DT.ltb_asymm {a b : DT} (h : a.ltb b = true) : b.ltb a = false := by
  rw [DT.ltb_iff] at h
  rw [DT.ltb_eq_false_iff]
  omega

/-! Generic lemmas about the query embedding. -/

theorem scalar_ok_some_iff {α : Type} (l : List α) (a : α) :
    scalar_one_or_none l = .ok (some a) ↔ l = [a] := by
  match l with
  | [] => simp [scalar_one_or_none]
  | [x] => simp [scalar_one_or_none]
  | x :: y :: rest => simp [scalar_one_or_none]

theorem eq_singleton_of_length_le_one {α : Type} {l : List α} {a : α}
    (h : l.length ≤ 1) (ha : a ∈ l) : l = [a] := by
  match l with
  | [] => cases ha
  | [x] =>
    rw [List.mem_singleton] at ha
    rw [ha]
  | x :: y :: rest => simp at h

theorem updateWhere_filter_nil {α : Type} (p : α → Bool) (f : α → α) :
    ∀ l : List α, l.filter p = [] → (updateWhere p f l).filter p = [] := by
  intro l
  induction l with
  | nil => intro _; rfl
  | cons x xs ih =>
    intro h
    simp only [List.filter_cons] at h
    simp only [updateWhere, List.map_cons, List.filter_cons]
    cases hx : p x with
    | true =>
      rw [hx] at h
      simp at h
    | false =>
      rw [hx] at h
      simp only [Bool.false_eq_true, if_false] at h
      simp only [Bool.false_eq_true, if_false, hx]
      exact ih h

theorem updateWhere_filter_singleton {α : Type} (p : α → Bool) (f : α → α)
    (hp : ∀ a, p a = true → p (f a) = true) :
    ∀ (l : List α) (c : α), l.filter p = [c] →
      (updateWhere p f l).filter p = [f c] := by
  intro l
  induction l with
  | nil => intro c h; cases h
  | cons x xs ih =>
    intro c h
    simp only [List.filter_cons] at h
    simp only [updateWhere, List.map_cons, List.filter_cons]
    cases hx : p x with
    | true =>
      rw [hx] at h
      rw [if_pos rfl] at h
      obtain ⟨hxc, htail⟩ := List.cons_eq_cons.mp h
      subst hxc
      have hfx : p (f x) = true := hp x hx
      have hnil : (updateWhere p f xs).filter p = [] :=
        updateWhere_filter_nil p f xs htail
      simp [hfx, hnil, updateWhere] at hnil ⊢
      exact hnil
    | false =>
      rw [hx] at h
      simp only [Bool.false_eq_true, if_false] at h
      simp only [Bool.false_eq_true, if_false, hx]
      exact ih c h

/-!
Claim C9 — the single-payment endpoints are dead code: both handler
bodies read the undefined name `current_client` first.
-/

/-- C9: for every input, `POST /payments` and `GET /payments/{id}` raise
the `NameError` on the undefined name `current_client` before reading or
writing any payment, account, or consent state, so no single payment can
ever be created or read through these endpoints. -/
theorem payments_endpoints_always_name_error :
    ∀ (init : PaymentInitiation) (pcid bank : Option String) (tok : Token)
      (db : DB) (now : DT) (payment_id : String),
      create_payment init pcid bank tok db now = .err .nameErrorCurrentClient ∧
      get_payment payment_id tok db = .err .nameErrorCurrentClient := by
  intro init pcid bank tok db now payment_id
  exact ⟨rfl, rfl⟩

/-!
Claim C10 — balance and transaction reads under a client token perform
neither an ownership check nor a consent check.
-/

theorem tx_consent_gate_client {tok : Token} (db : DB) (now : DT) (acc : Nat)
    (cid bank : Option String) (h : tok.token_type = "client") :
    tx_consent_gate db now acc cid bank tok = .ok db := by
  simp [tx_consent_gate, h]

/-- C10: under any bearer token of class client, the balance and
transaction-history reads are independent of which client the token
identifies and of the consent headers (the consent gate runs only when the
requesting-bank header is truthy and the token is not a client token), and
they return the account's data for any existing account with no check that
the account belongs to the token's client. -/
theorem client_token_reads_unchecked :
    (∀ (db : DB) (now : DT) (acc : Nat) (cid1 bank1 : Option String)
       (t1 : Token) (cid2 bank2 : Option String) (t2 : Token),
       t1.token_type = "client" → t2.token_type = "client" →
       get_balances db now acc cid1 bank1 t1 =
         get_balances db now acc cid2 bank2 t2) ∧
    (∀ (db : DB) (now : DT) (acc : Nat) (cid bank : Option String)
       (t : Token) (a : Account),
       t.token_type = "client" →
       db.accounts.filter (fun x => x.id == acc) = [a] →
       get_balances db now acc cid bank t =
         .ok (⟨a.id, a.balance, a.currency⟩, db)) ∧
    (∀ (db : DB) (now : DT) (acc : Nat) (page limit : Int)
       (cid1 bank1 : Option String) (t1 : Token)
       (cid2 bank2 : Option String) (t2 : Token),
       t1.token_type = "client" → t2.token_type = "client" →
       get_transactions db now acc page limit cid1 bank1 t1 =
         get_transactions db now acc page limit cid2 bank2 t2) := by
  refine ⟨?_, ?_, ?_⟩
  · intro db now acc cid1 bank1 t1 cid2 bank2 t2 h1 h2
    cases hs : scalar_one_or_none (db.accounts.filter fun a => a.id == acc) with
    | err e => simp [get_balances, hs]
    | ok o =>
      cases o with
      | none => simp [get_balances, hs]
      | some account => simp [get_balances, hs, h1, h2]
  · intro db now acc cid bank t a ht hfilter
    simp [get_balances, hfilter, scalar_one_or_none, ht]
  · intro db now acc page limit cid1 bank1 t1 cid2 bank2 t2 h1 h2
    by_cases hv : limit < 1 ∨ 100 < limit
    · simp [get_transactions, hv]
    · simp [get_transactions, hv, tx_consent_gate_client _ _ _ _ _ h1,
        tx_consent_gate_client _ _ _ _ _ h2]

/-- Witness for C10: a client token identifying `someone-else` reads the
balance of client 1's account. -/
theorem client_token_reads_unchecked_witness :
    get_balances c10_db ⟨2025, 10, 12, 0⟩ 1 none none
        ⟨"client", "someone-else"⟩ =
      .ok (⟨1, 7700, "RUB"⟩, c10_db) :=
  client_token_reads_unchecked.2.1 c10_db ⟨2025, 10, 12, 0⟩ 1 none none
    ⟨"client", "someone-else"⟩ c10_acct rfl (by decide)

/-!
Claim C8 — transaction-history paging.  The claim says out-of-range
`limit` values are coerced; the endpoint instead declares
`Query(50, ge=1, le=100)`, so FastAPI rejects `limit = 0` and
`limit > 100` with a validation error before the handler's coercion code
can run.  `page < 1` is coerced to 1, the slice is date-descending, and
the total is over the account's full history.
-/

theorem mem_insertDateDesc {t y : TransactionRec} :
    ∀ {l : List TransactionRec}, y ∈ insertDateDesc t l ↔ y = t ∨ y ∈ l := by
  intro l
  induction l with
  | nil => simp [insertDateDesc]
  | cons x xs ih =>
    simp only [insertDateDesc]
    cases hc : t.transaction_date.ltb x.transaction_date with
    | true =>
      rw [if_pos rfl]
      simp only [List.mem_cons, ih]
      tauto
    | false =>
      simp only [Bool.false_eq_true, if_false, List.mem_cons]

theorem pairwise_insertDateDesc {t : TransactionRec}
    {l : List TransactionRec} (h : l.Pairwise DateGe) :
    (insertDateDesc t l).Pairwise DateGe := by
  induction l with
  | nil => simp [insertDateDesc, List.pairwise_cons]
  | cons x xs ih =>
    rw [List.pairwise_cons] at h
    obtain ⟨hx, hxs⟩ := h
    simp only [insertDateDesc]
    cases hc : t.transaction_date.ltb x.transaction_date with
    | true =>
      rw [if_pos rfl, List.pairwise_cons]
      constructor
      · intro y hy
        rcases mem_insertDateDesc.mp hy with hyt | hymem
        · rw [hyt]
          exact DT.ltb_asymm hc
        · exact hx y hymem
      · exact ih hxs
    | false =>
      simp only [Bool.false_eq_true, if_false]
      rw [List.pairwise_cons]
      constructor
      · intro y hy
        rcases List.mem_cons.mp hy with hyx | hymem
        · rw [hyx]
          exact hc
        · exact DT.ltb_false_trans hc (hx y hymem)
      · rw [List.pairwise_cons]
        exact ⟨hx, hxs⟩

theorem pairwise_sortDateDesc (l : List TransactionRec) :
    (sortDateDesc l).Pairwise DateGe := by
  induction l with
  | nil => exact List.Pairwise.nil
  | cons x xs ih => exact pairwise_insertDateDesc ih

theorem txSlice_pairwise (db : DB) (acc : Nat) (pageC limit : Int) :
    (txSlice db acc pageC limit).transaction.Pairwise DateGe := by
  have hsub :
      (txSlice db acc pageC limit).transaction.Sublist
        (sortDateDesc (db.transactions.filter fun t => t.account_id == acc)) := by
    unfold txSlice
    exact (List.take_sublist _ _).trans (List.drop_sublist _ _)
  exact List.Pairwise.sublist hsub
    (pairwise_sortDateDesc (db.transactions.filter fun t => t.account_id == acc))

theorem txSlice_pageSize (db : DB) (acc : Nat) (pageC limit : Int)
    (h1 : 1 ≤ limit) (h2 : limit ≤ 100) :
    (txSlice db acc pageC limit).pageSize = limit := by
  simp only [txSlice]
  split_ifs <;> omega

/-- C8 (amended): `limit` values outside `[1, 100]` are rejected with a
request-validation error before the handler body runs, rather than being
coerced (so the body's own default and 500-cap coercions for `limit` are
unreachable); `page < 1` is coerced to `1`; and a successful response
under a client token leaves the state unchanged, reports the total over
the account's full history, and lists the slice in descending date
order. -/
theorem tx_paging_amended :
    (∀ (db : DB) (now : DT) (acc : Nat) (page limit : Int)
       (cid bank : Option String) (tok : Token),
       limit < 1 ∨ 100 < limit →
       get_transactions db now acc page limit cid bank tok =
         .err .validation422) ∧
    (∀ (db : DB) (now : DT) (acc : Nat) (page limit : Int)
       (cid bank : Option String) (tok : Token),
       page < 1 →
       get_transactions db now acc page limit cid bank tok =
         get_transactions db now acc 1 limit cid bank tok) ∧
    (∀ (db : DB) (now : DT) (acc : Nat) (page limit : Int)
       (cid bank : Option String) (tok : Token) (pg : TxPage) (db2 : DB),
       tok.token_type = "client" →
       get_transactions db now acc page limit cid bank tok = .ok (pg, db2) →
       db2 = db ∧ 1 ≤ limit ∧ limit ≤ 100 ∧ pg.pageSize = limit ∧
         pg.totalRecords =
           (db.transactions.filter fun t => t.account_id == acc).length ∧
         pg.transaction.Pairwise DateGe) := by
  refine ⟨?_, ?_, ?_⟩
  · intro db now acc page limit cid bank tok hv
    rw [get_transactions, if_pos hv]
  · intro db now acc page limit cid bank tok hp
    by_cases hv : limit < 1 ∨ 100 < limit
    · rw [get_transactions, if_pos hv, get_transactions, if_pos hv]
    · rw [get_transactions, if_neg hv, get_transactions, if_neg hv]
      cases hg : tx_consent_gate db now acc cid bank tok with
      | err e => rfl
      | ok db1 =>
        have : (if page < 1 then (1 : Int) else page) =
            (if (1 : Int) < 1 then 1 else 1) := by
          rw [if_pos hp, if_neg (by omega)]
        rw [this]
  · intro db now acc page limit cid bank tok pg db2 htok h
    by_cases hv : limit < 1 ∨ 100 < limit
    · rw [get_transactions, if_pos hv] at h
      cases h
    · rw [get_transactions, if_neg hv,
        tx_consent_gate_client db now acc cid bank htok] at h
      simp only [Res.ok.injEq, Prod.mk.injEq] at h
      obtain ⟨hpg, hdb⟩ := h
      have hlim : 1 ≤ limit ∧ limit ≤ 100 := by omega
      refine ⟨hdb.symm, hlim.1, hlim.2, ?_, ?_, ?_⟩
      · rw [← hpg]
        exact txSlice_pageSize db acc _ limit hlim.1 hlim.2
      · rw [← hpg]
        rfl
      · rw [← hpg]
        exact txSlice_pairwise db acc _ limit

/-- Counterexample to C8 as stated: a request with `limit = 0` is rejected
with a validation error; it is not coerced to the default of 50 (the two
calls differ). -/
theorem tx_limit_zero_rejected_not_coerced :
    get_transactions c8_db ⟨2025, 10, 12, 0⟩ 1 1 0 none none
        ⟨"client", "demo-1"⟩ = .err .validation422 ∧
    get_transactions c8_db ⟨2025, 10, 12, 0⟩ 1 1 0 none none
        ⟨"client", "demo-1"⟩ ≠
      get_transactions c8_db ⟨2025, 10, 12, 0⟩ 1 1 50 none none
        ⟨"client", "demo-1"⟩ := by
  constructor
  · rfl
  · decide

/-- Witness for C8: `page = 0` is coerced to page 1 on a concrete state. -/
theorem tx_paging_amended_witness :
    get_transactions c8_db ⟨2025, 10, 12, 0⟩ 1 0 50 none none
        ⟨"client", "demo-1"⟩ =
      get_transactions c8_db ⟨2025, 10, 12, 0⟩ 1 1 50 none none
        ⟨"client", "demo-1"⟩ :=
  tx_paging_amended.2.1 c8_db ⟨2025, 10, 12, 0⟩ 1 0 50 none none
    ⟨"client", "demo-1"⟩ (by decide)

/-!
Claim C4 — the `check_consent` hot path.  The supplied-id fallback on
`request_id` (line 58) can never match, because the integer column is
compared with a string; but the claimed "returned iff" fails when several
consents of the same grantor for the same grantee are simultaneously
active (the lookup raises `MultipleResultsFound`), and a supplied empty
string is treated as no id at all.
-/

theorem consentIdMismatch_eq_false_iff (c : Consent) (cid : String)
    (h : cid ≠ "") :
    consentIdMismatch c (some cid) = false ↔ c.consent_id = cid := by
  simp [consentIdMismatch, pyIntEqStr, h]

/-- C4 (amended): provided at most one consent of the grantor for the
grantee is simultaneously active and unexpired, and the supplied consent
id is a non-empty string, `check_consent` returns consent `c` exactly when
the grantor exists and matches, `c` belongs to the store, `c`'s grantee,
`"active"` status, and unexpired expiration all hold, the required
permissions are a subset of `c`'s, and the supplied id equals `c`'s
`consent_id` (the `request_id` fallback of line 58 compares an integer
with a string and never matches). -/
theorem check_consent_characterisation :
    ∀ (db : DB) (now : DT) (person bank : String) (perms : List String)
      (cid : String) (c : Consent),
      cid ≠ "" →
      (db.clients.filter fun cl => cl.person_id == person).length ≤ 1 →
      (∀ clid : Nat,
        (db.consents.filter (consentBaseMatch clid bank now)).length ≤ 1) →
      ((∃ db2, ConsentService.check_consent db now person bank perms
          (some cid) = .ok (some c, db2)) ↔
        ∃ cl, cl ∈ db.clients ∧ cl.person_id = person ∧ c ∈ db.consents ∧
          c.client_id = cl.id ∧ c.granted_to = bank ∧ c.status = "active" ∧
          now.ltb c.expiration_date_time = true ∧
          (∀ p ∈ perms, p ∈ c.permissions) ∧ c.consent_id = cid) := by
  intro db now person bank perms cid c hcid hcl hcon
  constructor
  · rintro ⟨db2, h⟩
    rw [ConsentService.check_consent] at h
    split at h
    · cases h
    · simp at h
    · rename_i client hs1
      split at h
      · cases h
      · simp at h
      · rename_i consent hs2
        split at h
        · simp at h
        · rename_i hm
          split at h
          · rename_i hall
            simp only [Res.ok.injEq, Prod.mk.injEq, Option.some.injEq] at h
            obtain ⟨hc_eq, _⟩ := h
            subst hc_eq
            have hfil1 := (scalar_ok_some_iff _ _).mp hs1
            have hclmem :
                client ∈ db.clients ∧ (client.person_id == person) = true :=
              List.mem_filter.mp
                (by rw [hfil1]; exact List.mem_singleton.mpr rfl)
            have hfil2 := (scalar_ok_some_iff _ _).mp hs2
            have hcmem :
                consent ∈ db.consents ∧
                  consentBaseMatch client.id bank now consent = true :=
              List.mem_filter.mp
                (by rw [hfil2]; exact List.mem_singleton.mpr rfl)
            have hbase := hcmem.2
            simp only [consentBaseMatch, Bool.and_eq_true, beq_iff_eq]
              at hbase
            have hm' : consentIdMismatch consent (some cid) = false := by
              revert hm
              cases consentIdMismatch consent (some cid) <;> simp
            have hid :=
              (consentIdMismatch_eq_false_iff consent cid hcid).mp hm'
            refine ⟨client, hclmem.1, by simpa using hclmem.2,
              hcmem.1, hbase.1.1.1, hbase.1.1.2, hbase.1.2, hbase.2,
              ?_, hid⟩
            intro p hp
            have := (List.all_eq_true.mp hall) p hp
            exact List.mem_of_elem_eq_true this
          · simp at h
  · rintro ⟨cl, hclmem, hperson, hcmem, hcc, hgr, hst, hexp, hperms, hid⟩
    have h1 : db.clients.filter (fun x => x.person_id == person) = [cl] :=
      eq_singleton_of_length_le_one hcl
        (List.mem_filter.mpr ⟨hclmem, by simp [hperson]⟩)
    have h2 : db.consents.filter (consentBaseMatch cl.id bank now) = [c] :=
      eq_singleton_of_length_le_one (hcon cl.id)
        (List.mem_filter.mpr
          ⟨hcmem, by simp [consentBaseMatch, hcc, hgr, hst, hexp]⟩)
    refine ⟨{ db with
        consents :=
          updateWhere (fun x => x.consent_id == c.consent_id)
            (fun x => { x with last_accessed_at := some now })
            db.consents }, ?_⟩
    rw [ConsentService.check_consent, h1]
    show (match scalar_one_or_none
        (db.consents.filter (consentBaseMatch cl.id bank now)) with
      | .err e => Res.err e
      | .ok none => Res.ok (none, db)
      | .ok (some consent) =>
        if consentIdMismatch consent (some cid) then .ok (none, db)
        else if perms.all (fun p => consent.permissions.contains p) then
          Res.ok (some consent,
            { db with
                consents :=
                  updateWhere (fun x => x.consent_id == consent.consent_id)
                    (fun x => { x with last_accessed_at := some now })
                    db.consents })
        else Res.ok (none, db)) = _
    rw [h2]
    have hmf : consentIdMismatch c (some cid) = false :=
      (consentIdMismatch_eq_false_iff c cid hcid).mpr hid
    have hall : perms.all (fun p => c.permissions.contains p) = true := by
      rw [List.all_eq_true]
      intro p hp
      exact List.elem_eq_true_of_mem (hperms p hp)
    show (if consentIdMismatch c (some cid) then _ else _) = _
    rw [hmf]
    show (if perms.all (fun p => c.permissions.contains p) then _ else _) = _
    rw [hall]
    rfl

/-- Counterexample to C4 as stated.  First part: with two simultaneously
active consents of the grantor for the grantee, the call naming
`consent-a` raises `MultipleResultsFound` and returns no consent, although
`consent-a` satisfies every condition of the claim.  Second part: a
supplied empty-string consent id is treated as absent, and the call
returns a consent whose `consent_id` differs from the supplied id. -/
theorem check_consent_claim_counterexample :
    (ConsentService.check_consent c4_db_two ⟨2025, 10, 12, 0⟩ "demo-1" "tpp1"
        ["ReadAccountsDetail"] (some "consent-a") =
        .err .multipleResultsFound ∧
      c4_consent_a ∈ c4_db_two.consents ∧
      c4_consent_a.granted_to = "tpp1" ∧ c4_consent_a.status = "active" ∧
      DT.ltb ⟨2025, 10, 12, 0⟩ c4_consent_a.expiration_date_time = true ∧
      c4_consent_a.consent_id = "consent-a") ∧
    ((ConsentService.check_consent c4_db_one ⟨2025, 10, 12, 0⟩ "demo-1"
        "tpp1" ["ReadAccountsDetail"] (some "")).isOk = true ∧
      (∀ db2, ConsentService.check_consent c4_db_one ⟨2025, 10, 12, 0⟩
        "demo-1" "tpp1" ["ReadAccountsDetail"] (some "") =
          .ok (some c4_consent_a, db2) → c4_consent_a.consent_id ≠ "")) := by
  constructor
  · exact ⟨rfl, by decide, rfl, rfl, rfl, rfl⟩
  · exact ⟨rfl, fun db2 _ => by decide⟩

/-- Witness for C4: the characterisation applied to the single-consent
state with the matching id. -/
theorem check_consent_characterisation_witness :
    ∃ db2, ConsentService.check_consent c4_db_one ⟨2025, 10, 12, 0⟩ "demo-1"
      "tpp1" ["ReadAccountsDetail"] (some "consent-a") =
        .ok (some c4_consent_a, db2) :=
  (check_consent_characterisation c4_db_one ⟨2025, 10, 12, 0⟩ "demo-1" "tpp1"
      ["ReadAccountsDetail"] "consent-a" c4_consent_a (by decide)
      (by decide) (fun clid =>
        le_trans (List.length_filter_le _ _) (by decide))).mpr
    ⟨⟨1, "demo-1"⟩, by decide, rfl, by decide, rfl, rfl, rfl, rfl,
      by decide, rfl⟩

/-!
Claim C6 — revocation authorization.  For account-access consents the
service enforces grantor and `"active"` status; the payment-consent
revocation endpoint enforces neither.
-/

/-- C6 (amended): for account-access consents,
`ConsentService.revoke_consent` succeeds only when the caller is the
consent's grantor and the consent is `"active"`.  For payment consents,
`DELETE /payment-consents/{id}` checks neither the caller nor the status:
for any authenticated token and any stored consent — whatever its current
status — the call succeeds and sets the status to `"revoked"`. -/
theorem revoke_only_grantor_amended :
    (∀ (db : DB) (now : DT) (cid person : String) (db2 : DB),
       ConsentService.revoke_consent db now cid person = .ok (true, db2) →
       ∃ cl c, cl ∈ db.clients ∧ cl.person_id = person ∧ c ∈ db.consents ∧
         c.consent_id = cid ∧ c.client_id = cl.id ∧ c.status = "active") ∧
    (∀ (db : DB) (now : DT) (cid : String) (tok : Token) (c : PaymentConsent),
       db.payment_consents.filter (fun x => x.consent_id == cid) = [c] →
       revoke_payment_consent db now cid tok =
         .ok ((),
           { db with
               payment_consents :=
                 updateWhere (fun x => x.consent_id == cid)
                   (fun x =>
                     { x with
                         status := "revoked"
                         revoked_at := some now
                         status_update_date_time := now })
                   db.payment_consents }) ∧
       ((updateWhere (fun x => x.consent_id == cid)
           (fun x =>
             { x with
                 status := "revoked"
                 revoked_at := some now
                 status_update_date_time := now })
           db.payment_consents).filter
             (fun x => x.consent_id == cid)).map (fun x => x.status) =
         ["revoked"]) := by
  constructor
  · intro db now cid person db2 h
    rw [ConsentService.revoke_consent] at h
    split at h
    · cases h
    · simp at h
    · rename_i client hs1
      split at h
      · cases h
      · simp at h
      · rename_i c hs2
        have hfil1 := (scalar_ok_some_iff _ _).mp hs1
        have hclmem :
            client ∈ db.clients ∧ (client.person_id == person) = true :=
          List.mem_filter.mp
            (by rw [hfil1]; exact List.mem_singleton.mpr rfl)
        have hfil2 := (scalar_ok_some_iff _ _).mp hs2
        have hcmem := List.mem_filter.mp
          (show c ∈ db.consents.filter (fun x =>
              x.consent_id == cid && x.client_id == client.id &&
                x.status == "active") by
            rw [hfil2]; exact List.mem_singleton.mpr rfl)
        have hprops := hcmem.2
        simp only [Bool.and_eq_true, beq_iff_eq] at hprops
        exact ⟨client, c, hclmem.1, by simpa using hclmem.2, hcmem.1,
          hprops.1.1, hprops.1.2, hprops.2⟩
  · intro db now cid tok c hfilter
    constructor
    · rw [revoke_payment_consent, (scalar_ok_some_iff _ c).mpr hfilter]
    · have hsing :=
        updateWhere_filter_singleton (fun x => x.consent_id == cid)
          (fun x =>
            { x with
                status := "revoked"
                revoked_at := some now
                status_update_date_time := now })
          (fun a ha => ha) db.payment_consents c hfilter
      rw [hsing]
      rfl

/-- Counterexample to C6 as stated: a payment consent whose status is
already `"used"` (not the authorized status), revoked through the
payment-consent endpoint under a token identifying a client other than the
grantor — the call succeeds and the consent ends up `"revoked"`. -/
theorem revoke_claim_counterexample :
    c6_pc.status = "used" ∧
    (revoke_payment_consent c6_db ⟨2025, 10, 12, 0⟩ "pcon-1"
        ⟨"client", "other"⟩).isOk = true ∧
    c6_after.payment_consents.map (fun c => c.status) = ["revoked"] := by
  exact ⟨rfl, rfl, rfl⟩

/-- Witness for C6: the payment-consent half applied to the concrete
consumed consent. -/
theorem revoke_only_grantor_amended_witness :
    revoke_payment_consent c6_db ⟨2025, 10, 12, 0⟩ "pcon-1"
        ⟨"client", "other"⟩ =
      .ok ((),
        { c6_db with
            payment_consents :=
              updateWhere (fun x => x.consent_id == "pcon-1")
                (fun x =>
                  { x with
                      status := "revoked"
                      revoked_at := some (⟨2025, 10, 12, 0⟩ : DT)
                      status_update_date_time := ⟨2025, 10, 12, 0⟩ })
                c6_db.payment_consents }) :=
  (revoke_only_grantor_amended.2 c6_db ⟨2025, 10, 12, 0⟩ "pcon-1"
    ⟨"client", "other"⟩ c6_pc (by decide)).1

/-- C3: the handler as written raises `NameError` on the matching first
payment, so no payment ever succeeds and no consent is ever consumed —
contradicting the claim's "first successful payment marks it used".  The
reachable interior logic (lines 153-263) does behave as claimed: the first
call succeeds, moves the money, and marks the consent `"used"`; the second
identical call is rejected with `INVALID_CONSENT`. -/
theorem payment_consent_single_use_divergence :
    (∀ tok : Token, create_payment c3_init (some "pcon-1") (some "tpp1") tok
      c3_db ⟨2025, 10, 12, 0⟩ = .err .nameErrorCurrentClient) ∧
    c3_first.isOk = true ∧
    c3_db1.payment_consents.map (fun c => c.status) = ["used"] ∧
    (c3_db1.accounts.map fun a => a.balance) = [50000, 50000] ∧
    create_payment_reachable c3_init (some "pcon-1") (some "tpp1") c3_db1
        ⟨2025, 10, 12, 0⟩ = .err (.http 403 "INVALID_CONSENT") := by
  exact ⟨fun _ => rfl, rfl, rfl, rfl, rfl⟩

/-- C1: a payment deviating from consent `pcon-1` in amount, debtor
account, creditor account, and currency is not rejected with
`CONSENT_MISMATCH`: the reachable gate logic accepts it, creates the
payment of the deviating amount, and consumes the consent, because only
the grantee is compared.  The handler as written raises `NameError`
instead, so no `CONSENT_MISMATCH` is ever produced for field
deviations. -/
theorem consent_mismatch_not_enforced :
    (c1_init.amount ≠ c1_pc.amount ∧
      c1_init.debtor_identification ≠ c1_pc.debtor_account ∧
      c1_init.creditor_identification ≠ c1_pc.creditor_account ∧
      c1_init.currency ≠ c1_pc.currency) ∧
    c1_res.isOk = true ∧
    (c1_db2.payments.map fun p => p.amount) = [99999] ∧
    c1_db2.payment_consents.map (fun c => c.status) = ["used"] ∧
    (∀ tok : Token, create_payment c1_init (some "pcon-1") (some "tpp1") tok
      c1_db ⟨2025, 10, 12, 0⟩ = .err .nameErrorCurrentClient) := by
  exact ⟨by decide, rfl, rfl, rfl, fun _ => rfl⟩

/-- C5: for a successful VRP payment whose destination is a local active
account, the source is debited but the destination is never credited, so
`balance(src) + balance(dst)` drops by the amount; a failed payment
(insufficient funds) leaves the state unchanged. -/
theorem vrp_payment_breaks_conservation :
    (c5_db.accounts.find? fun a => a.account_number == "DEST1").isSome =
        true ∧
    c5_res.isOk = true ∧
    (c5_db2.accounts.map fun a => a.balance) = [75000, 0] ∧
    ((75000 : Int) + 0 ≠ 100000 + 0) ∧
    create_vrp_payment c5_db ⟨2025, 10, 12, 0⟩
        { c5_req with amount := 200000 } =
      .err (.http 400 "INSUFFICIENT_FUNDS", c5_db) := by
  exact ⟨rfl, rfl, rfl, by decide, rfl⟩

/-- C2: the fifth `5000.00` VRP payment of the month violates the
period-sum guard (`20000.00 + 5000.00 > 20000.00`), and the count guard
variant violates `count + 1 ≤ max_payments_count`, yet both payments are
executed: the handler evaluates neither guard, so the claimed rejection
never happens. -/
theorem vrp_caps_not_enforced :
    c5_consent.max_amount_period = some 2000000 ∧
    vrp_executed_month_sum c2_db "vrpc-1" ⟨2025, 10, 20, 0⟩ + c2_req.amount >
        (2000000 : Int) ∧
    (create_vrp_payment c2_db ⟨2025, 10, 20, 0⟩ c2_req).isOk = true ∧
    c2_db2.vrp_payments.length = 5 ∧
    (c2_db2.accounts.map fun a => a.balance) = [500000] ∧
    c2_db_count.vrp_payments.length + 1 > 4 ∧
    (create_vrp_payment c2_db_count ⟨2025, 10, 20, 0⟩ c2_req).isOk = true := by
  exact ⟨rfl, by decide, rfl, rfl, rfl, by decide, rfl⟩

/-- C7: both agreement handlers as written raise `NameError` on every
call, so no loan can ever be opened or closed — contradicting the claimed
round trip.  The reachable interior logic does implement it: opening for
`P = 1000.00` moves `P` from capital to `total_loans` and creates the loan
account at `P`; an open for more than the capital is rejected; closing
with repayment from the funded account restores capital and `total_loans`,
zeroes and closes the loan account, and debits the repayment account by
`P`. -/
theorem loan_roundtrip_divergence :
    (∀ (tok : Token) (req : ProductAgreementRequest),
      create_agreement req tok c7_db ⟨2025, 10, 12, 0⟩ =
        .err .nameErrorCurrentClient) ∧
    (∀ (tok : Token) (aid : String) (req : Option CloseAgreementRequest),
      close_agreement aid req tok c7_db ⟨2025, 10, 12, 0⟩ =
        .err .nameErrorCurrentClient) ∧
    c7_open.isOk = true ∧
    (c7_db1.capitals.map fun c => (c.capital, c.total_loans)) =
        [(4900000, 100000)] ∧
    (c7_db1.accounts.map fun a => (a.id, a.balance)) =
        [(1, 200000), (2, 100000)] ∧
    create_agreement_reachable c7_db ⟨2025, 10, 12, 0⟩ "demo-1"
        { product_id := "prod-loan", amount := 6000000 } =
      .err (.http 400 "INSUFFICIENT_BANK_CAPITAL") ∧
    c7_close.isOk = true ∧
    (c7_db2.capitals.map fun c => (c.capital, c.total_loans)) =
        [(5000000, 0)] ∧
    (c7_db2.accounts.map fun a => (a.id, a.balance, a.status)) =
        [(1, 100000, "active"), (2, 0, "closed")] ∧
    (c7_db2.agreements.map fun a => a.status) = ["closed"] := by
  exact ⟨fun _ _ => rfl, fun _ _ _ => rfl, rfl, rfl, rfl, rfl, rfl, rfl,
    rfl, rfl⟩

end Bank
